import Mathlib

/-!
Shallow embedding of the resume-analyzer Flask service, file
app/main.py: the GET / liveness route and the POST /analyze/ route with
its validation chain, its four collaborator calls, and its mapping of
raised errors to HTTP status codes and JSON bodies.

The downstream services module (process_pdf_bytes,
perform_resume_analysis, calculate_resume_jd_similarity,
initialization_error) is external to the handler and is modelled as an
oracle structure of functions returning Except values; a raised Python
ValueError and any other raised exception are the two error
constructors. The handler additionally returns the list of collaborator
calls it issued, so that claims about which collaborators run, and in
which order, are statable.
-/

/-- A Python exception raised by a collaborator call or a file read:
either a ValueError carrying a message, or an exception of any other
class carrying a message. -/
inductive PyErr where
  | valueError (msg : String)
  | otherError (msg : String)
deriving DecidableEq, Repr

/-- The text str(e) of a raised exception: its message. -/
def PyErr.msg : PyErr → String
  | PyErr.valueError m => m
  | PyErr.otherError m => m

/-- An uploaded multipart file: its original filename and the outcome of
reading its byte content (the read call may raise). Bytes are modelled
as a list of naturals. -/
structure UploadedFile where
  filename : String
  read : Except PyErr (List Nat)
deriving Repr

/-- A POST request to /analyze/: the multipart form files, as an
association list from field name to uploaded file (first binding wins,
as in the werkzeug MultiDict). -/
structure AnalyzeRequest where
  files : List (String × UploadedFile)
deriving Repr

/-- The services module as seen from the handler: the latched
initialization error (empty string when initialization succeeded, the
error text otherwise) and the three collaborator functions, each of
which either returns a value or raises. P, A and S are the opaque
parsed-documents, analysis-result and similarity-result types. -/
structure Services (P A S : Type) where
  initialization_error : String
  process_pdf_bytes : List Nat → String → Except PyErr P
  perform_resume_analysis : P → Except PyErr A
  calculate_resume_jd_similarity : P → P → Except PyErr S

/-- One collaborator invocation, recorded with its arguments. -/
inductive CallEvent (P : Type) where
  | parsePdf (bytes : List Nat) (filename : String)
  | analyze (docs : P)
  | compareSimilarity (resumeDocs jdDocs : P)
deriving DecidableEq, Repr

/-- Modelled from the spec: the response envelope schema
AnalysisAndSimilarityResponse of app/schemas.py, which is not among the
provided sources; the spec gives its exact fields: resume_analysis,
similarity_results and processing_time_seconds. Wall-clock seconds are
modelled as rationals. -/
structure AnalysisAndSimilarityResponse (A S : Type) where
  resume_analysis : A
  similarity_results : S
  processing_time_seconds : Rat
deriving DecidableEq, Repr

/-- A JSON response body, one constructor per body shape the handler
produces: a framework error description (Flask abort), an
error/detail object, a status object, or the success envelope. -/
inductive Body (A S : Type) where
  | message (description : String)
  | errorDetail (error detail : String)
  | statusMsg (status : String)
  | envelope (payload : AnalysisAndSimilarityResponse A S)
deriving DecidableEq, Repr

/-- An HTTP response: status code and JSON body. -/
structure Response (A S : Type) where
  status : Nat
  body : Body A S
deriving DecidableEq, Repr

/-- The characters on which the Python str.split() call with no
arguments splits, restricted to ASCII: tab, newline, vertical tab, form
feed, carriage return, the four separator control characters, and
space. -/
def isPySpace (c : Char) : Bool :=
  c.toNat == 9 || c.toNat == 10 || c.toNat == 11 || c.toNat == 12 ||
  c.toNat == 13 || c.toNat == 28 || c.toNat == 29 || c.toNat == 30 ||
  c.toNat == 31 || c.toNat == 32

/-- The characters kept by the werkzeug filename regular expression:
A-Z, a-z, 0-9, underscore, dot, hyphen. -/
def keepAsciiChar (c : Char) : Bool :=
  ('A' ≤ c && c ≤ 'Z') || ('a' ≤ c && c ≤ 'z') || ('0' ≤ c && c ≤ '9') ||
  c == '_' || c == '.' || c == '-'

/-- Dot or underscore, the characters stripped from both ends of the
sanitized filename. -/
def isDotOrUnderscore (c : Char) : Bool :=
  c == '.' || c == '_'

/-- Embedding of werkzeug.utils.secure_filename as it behaves on a
POSIX host: NFKD normalization followed by ASCII encoding with errors
ignored (modelled as dropping the non-ASCII characters, which is exact
for ASCII input), replacement of the path separator by a space,
collapsing of whitespace-separated words with underscores, removal of
every character outside A-Za-z0-9_.-, and stripping of leading and
trailing dots and underscores. The Windows device-file branch is a
no-op on POSIX and is omitted. -/
def secure_filename (filename : String) : String :=
  let ascii := filename.data.filter (fun c => c.toNat ≤ 127)
  let swapped := ascii.map (fun c => if c == '/' then ' ' else c)
  let parts := (swapped.splitOnP isPySpace).filter (fun p => !p.isEmpty)
  let kept := (List.intercalate ([ '_' ]) parts).filter keepAsciiChar
  let stripped :=
    ((kept.dropWhile isDotOrUnderscore).reverse.dropWhile isDotOrUnderscore).reverse
  String.mk stripped

/-- Python str.lower on the ASCII range: each A-Z character is mapped
to its lowercase form, every other character is unchanged. Sanitized
filenames only contain ASCII characters, so this is exact there. -/
def py_lower (s : String) : String :=
  String.mk (s.data.map Char.toLower)

/-- Python str.endswith: whether the second string is a suffix of the
first. -/
def py_endswith (s post : String) : Bool :=
  List.isSuffixOf post.data s.data

/-- A raw HTTP request to the root route: headers and body, none of
which the handler inspects. -/
structure RawRequest where
  headers : List (String × String)
  rawBody : String

/-- The GET / handler read_root, lines 51-59 of app/main.py: returns
the fixed status body with code 200 and touches nothing else. -/
def read_root (_r : RawRequest) : Response Unit Unit :=
  { status := 200,
    body := Body.statusMsg ("AI Resume Analyzer Flask API is running!") }

/-- The core processing pipeline of POST /analyze/, lines 120-165 of
app/main.py: the four collaborator calls in strict sequence inside the
try blocks, the except clauses mapping a ValueError to 422 and any
other exception to 500, and the success response assembly. Returns the
response together with the list of collaborator calls issued. -/
def runProcessing {P A S : Type} (svc : Services P A S)
    (resume_bytes jd_bytes : List Nat)
    (resume_filename jd_filename : String)
    (start_time end_time : Rat) :
    Response A S × List (CallEvent P) :=
  let ev1 : CallEvent P := CallEvent.parsePdf resume_bytes resume_filename
  match svc.process_pdf_bytes resume_bytes resume_filename with
  | Except.error (PyErr.valueError m) =>
      ({ status := 422, body := Body.errorDetail ("Processing Error") m }, [ev1])
  | Except.error (PyErr.otherError m) =>
      ({ status := 500, body := Body.errorDetail ("Internal Server Error") m }, [ev1])
  | Except.ok resume_docs =>
    let ev2 : CallEvent P := CallEvent.parsePdf jd_bytes jd_filename
    match svc.process_pdf_bytes jd_bytes jd_filename with
    | Except.error (PyErr.valueError m) =>
        ({ status := 422, body := Body.errorDetail ("Processing Error") m }, [ev1, ev2])
    | Except.error (PyErr.otherError m) =>
        ({ status := 500, body := Body.errorDetail ("Internal Server Error") m }, [ev1, ev2])
    | Except.ok jd_docs =>
      let ev3 : CallEvent P := CallEvent.analyze resume_docs
      match svc.perform_resume_analysis resume_docs with
      | Except.error (PyErr.valueError m) =>
          ({ status := 422, body := Body.errorDetail ("Processing Error") m }, [ev1, ev2, ev3])
      | Except.error (PyErr.otherError m) =>
          ({ status := 500, body := Body.errorDetail ("Internal Server Error") m }, [ev1, ev2, ev3])
      | Except.ok analysis_result =>
        let ev4 : CallEvent P := CallEvent.compareSimilarity resume_docs jd_docs
        match svc.calculate_resume_jd_similarity resume_docs jd_docs with
        | Except.error (PyErr.valueError m) =>
            ({ status := 422, body := Body.errorDetail ("Processing Error") m },
             [ev1, ev2, ev3, ev4])
        | Except.error (PyErr.otherError m) =>
            ({ status := 500, body := Body.errorDetail ("Internal Server Error") m },
             [ev1, ev2, ev3, ev4])
        | Except.ok similarity_result =>
          let processing_time := end_time - start_time
          ({ status := 200,
             body := Body.envelope
               { resume_analysis := analysis_result,
                 similarity_results := similarity_result,
                 processing_time_seconds := processing_time } },
           [ev1, ev2, ev3, ev4])

/-- The POST /analyze/ handler analyze_resume_and_jd_flask, lines
62-165 of app/main.py. start_time and end_time are the two wall-clock
samples the handler takes. Returns the response together with the list
of collaborator calls issued. -/
def analyze_resume_and_jd_flask {P A S : Type} (svc : Services P A S)
    (req : AnalyzeRequest) (start_time end_time : Rat) :
    Response A S × List (CallEvent P) :=
  if svc.initialization_error ≠ "" then
    ({ status := 503,
       body := Body.message
         ("API service unavailable due to initialization failure: " ++
           svc.initialization_error) }, [])
  else
    match req.files.lookup ("resume_file"), req.files.lookup ("jd_file") with
    | some resume_file, some jd_file =>
      if resume_file.filename = "" ∨ jd_file.filename = "" then
        ({ status := 400,
           body := Body.message ("Uploaded files must have filenames.") }, [])
      else
        let resume_filename := secure_filename resume_file.filename
        let jd_filename := secure_filename jd_file.filename
        if ¬ py_endswith (py_lower resume_filename) (".pdf") = true ∨
           ¬ py_endswith (py_lower jd_filename) (".pdf") = true then
          ({ status := 400,
             body := Body.message ("Invalid file type. Please upload PDF files only.") }, [])
        else
          match resume_file.read with
          | Except.error e =>
              ({ status := 400,
                 body := Body.message
                   ("Failed to read file content: " ++ e.msg ++ ".") }, [])
          | Except.ok resume_bytes =>
            match jd_file.read with
            | Except.error e =>
                ({ status := 400,
                   body := Body.message
                     ("Failed to read file content: " ++ e.msg ++ ".") }, [])
            | Except.ok jd_bytes =>
              runProcessing svc resume_bytes jd_bytes resume_filename jd_filename
                start_time end_time
    | _, _ =>
        ({ status := 400,
           body := Body.message
             ("Missing \x27resume_file\x27 or \x27jd_file\x27 in the request.") }, [])

/-- A collaborator set for concrete runs: initialization succeeded and
every call returns a value. -/
def svcOk : Services Nat Nat Nat :=
  { initialization_error := ""
  , process_pdf_bytes := fun _ _ => Except.ok 7
  , perform_resume_analysis := fun _ => Except.ok 8
  , calculate_resume_jd_similarity := fun _ _ => Except.ok 9 }

/-- A collaborator set whose initialization failed with message boom. -/
def svcInitFailed : Services Nat Nat Nat :=
  { svcOk with initialization_error := "boom" }

/-- A collaborator set whose PDF parsing raises a ValueError. -/
def svcParseValueError : Services Nat Nat Nat :=
  { svcOk with process_pdf_bytes := fun _ _ => Except.error (PyErr.valueError "bad pdf") }

/-- A collaborator set whose PDF parsing raises an unexpected
exception. -/
def svcParseOtherError : Services Nat Nat Nat :=
  { svcOk with process_pdf_bytes := fun _ _ => Except.error (PyErr.otherError "oops") }

/-- A valid resume upload. -/
def goodResume : UploadedFile :=
  { filename := "resume.pdf", read := Except.ok [1, 2, 3] }

/-- A valid job-description upload. -/
def goodJd : UploadedFile :=
  { filename := "jd.pdf", read := Except.ok [4, 5] }

/-- A fully valid request: both fields present, PDF filenames, readable
bytes. -/
def goodReq : AnalyzeRequest :=
  { files := [("resume_file", goodResume), ("jd_file", goodJd)] }

/-- A request missing the resume_file field. -/
def missingReq : AnalyzeRequest :=
  { files := [("jd_file", goodJd)] }

/-- An upload carrying an empty filename. -/
def emptyNameFile : UploadedFile :=
  { filename := "", read := Except.ok [1] }

/-- A request whose resume upload has an empty filename. -/
def emptyNameReq : AnalyzeRequest :=
  { files := [("resume_file", emptyNameFile), ("jd_file", goodJd)] }

/-- An upload named only .pdf, whose sanitized filename is pdf. -/
def dotPdfFile : UploadedFile :=
  { filename := ".pdf", read := Except.ok [1] }

/-- A request whose resume upload is named only .pdf. -/
def dotPdfReq : AnalyzeRequest :=
  { files := [("resume_file", dotPdfFile), ("jd_file", goodJd)] }

/-- An upload whose byte read raises a ValueError. -/
def badReadFile : UploadedFile :=
  { filename := "resume.pdf", read := Except.error (PyErr.valueError "stream broke") }

/-- A request whose resume upload fails to read. -/
def badReadReq : AnalyzeRequest :=
  { files := [("resume_file", badReadFile), ("jd_file", goodJd)] }

/-- Once every validation step passes, the analyze handler is exactly
the processing pipeline run on the read bytes and the sanitized
filenames. -/
theorem analyze_after_validation {P A S : Type} (svc : Services P A S)
    (req : AnalyzeRequest) (t0 t1 : Rat) (rf jf : UploadedFile)
    (rb jb : List Nat)
    (hinit : svc.initialization_error = "")
    (hrf : req.files.lookup ("resume_file") = some rf)
    (hjf : req.files.lookup ("jd_file") = some jf)
    (hrn : ¬ rf.filename = "") (hjn : ¬ jf.filename = "")
    (hre : py_endswith (py_lower (secure_filename rf.filename)) (".pdf") = true)
    (hje : py_endswith (py_lower (secure_filename jf.filename)) (".pdf") = true)
    (hrr : rf.read = Except.ok rb) (hjr : jf.read = Except.ok jb) :
    analyze_resume_and_jd_flask svc req t0 t1 =
      runProcessing svc rb jb (secure_filename rf.filename)
        (secure_filename jf.filename) t0 t1 := by
  unfold analyze_resume_and_jd_flask
  rw [hrf, hjf]
  simp [hinit, hrn, hjn, hre, hje, hrr, hjr]

/-- C1: if the process-wide initialization-error state is non-empty,
every POST to /analyze/ answers 503 with a body describing the captured
initialization error, and no collaborator is invoked, whatever the
request contains. -/
theorem analyze_init_error_503 {P A S : Type} (svc : Services P A S)
    (req : AnalyzeRequest) (t0 t1 : Rat)
    (hinit : svc.initialization_error ≠ "") :
    analyze_resume_and_jd_flask svc req t0 t1 =
      ({ status := 503,
         body := Body.message
           ("API service unavailable due to initialization failure: " ++
             svc.initialization_error) }, []) := by
  unfold analyze_resume_and_jd_flask
  rw [if_pos hinit]

/-- C1 witness: with a latched initialization error and an otherwise
fully valid request, the response is 503 and the collaborator trace is
empty. -/
theorem analyze_init_error_503_witness :
    analyze_resume_and_jd_flask svcInitFailed goodReq 0 1 =
      ({ status := 503,
         body := Body.message
           ("API service unavailable due to initialization failure: " ++
             svcInitFailed.initialization_error) }, []) :=
  analyze_init_error_503 svcInitFailed goodReq 0 1 (by decide)

/-- C4: with empty initialization-error state, a POST to /analyze/
lacking the resume_file field or the jd_file field answers 400 with a
message naming the missing fields, and no collaborator is invoked; the
fixed message names both fields. -/
theorem analyze_missing_field_400 {P A S : Type} (svc : Services P A S)
    (req : AnalyzeRequest) (t0 t1 : Rat)
    (hinit : svc.initialization_error = "")
    (hmiss : req.files.lookup ("resume_file") = none ∨
             req.files.lookup ("jd_file") = none) :
    analyze_resume_and_jd_flask svc req t0 t1 =
      ({ status := 400,
         body := Body.message
           ("Missing \x27resume_file\x27 or \x27jd_file\x27 in the request.") }, []) ∧
    "Missing \x27resume_file\x27 or \x27jd_file\x27 in the request." =
      "Missing \x27" ++ "resume_file" ++ "\x27 or \x27" ++ "jd_file" ++
        "\x27 in the request." := by
  refine ⟨?_, rfl⟩
  unfold analyze_resume_and_jd_flask
  rcases hmiss with h | h
  · rw [h]
    simp [hinit]
  · rw [h]
    rcases hr : req.files.lookup ("resume_file") with _ | rf
    · simp [hinit]
    · simp [hinit]

/-- C4 witness: a request carrying only jd_file answers 400 with the
missing-field message and an empty collaborator trace. -/
theorem analyze_missing_field_400_witness :
    analyze_resume_and_jd_flask svcOk missingReq 0 1 =
      ({ status := 400,
         body := Body.message
           ("Missing \x27resume_file\x27 or \x27jd_file\x27 in the request.") }, []) :=
  (analyze_missing_field_400 svcOk missingReq 0 1 rfl (Or.inl rfl)).1

/-- C8: every GET request to the root route, whatever its headers and
body, answers 200 with the fixed running-status body; the handler is a
pure constant function of the request, so it has no side effects and no
failure mode of its own. -/
theorem read_root_constant :
    ∀ r rOther : RawRequest,
      read_root r =
        { status := 200,
          body := Body.statusMsg ("AI Resume Analyzer Flask API is running!") } ∧
      read_root r = read_root rOther := by
  intro r rOther
  exact ⟨rfl, rfl⟩

/-- C5: with both fields present, an empty filename on either file
answers 400; otherwise the filenames are sanitized and each sanitized
filename must end in .pdf case-insensitively, else 400 identifying the
invalid type; the check accepts RESUME.PDF and rejects resume.docx. -/
theorem analyze_filename_validation {P A S : Type} (svc : Services P A S)
    (req : AnalyzeRequest) (t0 t1 : Rat) (rf jf : UploadedFile)
    (hinit : svc.initialization_error = "")
    (hrf : req.files.lookup ("resume_file") = some rf)
    (hjf : req.files.lookup ("jd_file") = some jf) :
    (rf.filename = "" ∨ jf.filename = "" →
      analyze_resume_and_jd_flask svc req t0 t1 =
        ({ status := 400,
           body := Body.message ("Uploaded files must have filenames.") }, [])) ∧
    (¬ rf.filename = "" → ¬ jf.filename = "" →
      (¬ py_endswith (py_lower (secure_filename rf.filename)) (".pdf") = true ∨
       ¬ py_endswith (py_lower (secure_filename jf.filename)) (".pdf") = true) →
      analyze_resume_and_jd_flask svc req t0 t1 =
        ({ status := 400,
           body := Body.message ("Invalid file type. Please upload PDF files only.") }, [])) ∧
    py_endswith (py_lower (secure_filename ("RESUME.PDF"))) (".pdf") = true ∧
    py_endswith (py_lower (secure_filename ("resume.docx"))) (".pdf") = false := by
  refine ⟨?_, ?_, by decide, by decide⟩
  · intro hempty
    unfold analyze_resume_and_jd_flask
    rw [hrf, hjf]
    simp [hinit, hempty]
  · intro hrn hjn hbad
    unfold analyze_resume_and_jd_flask
    rw [hrf, hjf]
    rcases hbad with h | h
    · simp [hinit, hrn, hjn, h]
    · simp [hinit, hrn, hjn, h]

/-- C5 witness: a request whose resume file carries an empty filename
answers 400 with the filename message and an empty trace. -/
theorem analyze_filename_validation_witness :
    analyze_resume_and_jd_flask svcOk emptyNameReq 0 1 =
      ({ status := 400,
         body := Body.message ("Uploaded files must have filenames.") }, []) :=
  (analyze_filename_validation svcOk emptyNameReq 0 1 emptyNameFile goodJd
    rfl rfl rfl).1 (Or.inl rfl)

/-- C9: the extension check and the filename handed to ParsePdf use the
sanitized filename, not the original one: a file whose original name
ends in .pdf but whose sanitized name does not is answered 400; when
the checks pass, the first collaborator call carries the sanitized
resume filename; the original name .pdf ends in .pdf, yet sanitizes to
pdf, which does not. -/
theorem analyze_uses_sanitized_filenames {P A S : Type} (svc : Services P A S)
    (req : AnalyzeRequest) (t0 t1 : Rat) (rf jf : UploadedFile)
    (rb jb : List Nat)
    (hinit : svc.initialization_error = "")
    (hrf : req.files.lookup ("resume_file") = some rf)
    (hjf : req.files.lookup ("jd_file") = some jf)
    (hrn : ¬ rf.filename = "") (hjn : ¬ jf.filename = "") :
    (py_endswith (py_lower rf.filename) (".pdf") = true →
     ¬ py_endswith (py_lower (secure_filename rf.filename)) (".pdf") = true →
      analyze_resume_and_jd_flask svc req t0 t1 =
        ({ status := 400,
           body := Body.message ("Invalid file type. Please upload PDF files only.") }, [])) ∧
    (py_endswith (py_lower (secure_filename rf.filename)) (".pdf") = true →
     py_endswith (py_lower (secure_filename jf.filename)) (".pdf") = true →
     rf.read = Except.ok rb → jf.read = Except.ok jb →
      (analyze_resume_and_jd_flask svc req t0 t1 (P := P) (A := A) (S := S)).2.head? =
        some (CallEvent.parsePdf rb (secure_filename rf.filename))) ∧
    secure_filename (".pdf") = "pdf" ∧
    py_endswith (py_lower (".pdf")) (".pdf") = true ∧
    py_endswith (py_lower (secure_filename (".pdf"))) (".pdf") = false := by
  refine ⟨?_, ?_, by decide, by decide, by decide⟩
  · intro _ hbad
    unfold analyze_resume_and_jd_flask
    rw [hrf, hjf]
    simp [hinit, hrn, hjn, hbad]
  · intro hre hje hrr hjr
    rw [analyze_after_validation svc req t0 t1 rf jf rb jb hinit hrf hjf
      hrn hjn hre hje hrr hjr]
    unfold runProcessing
    rcases h1 : svc.process_pdf_bytes rb (secure_filename rf.filename) with e | rd
    · rcases e with m | m
      · simp [h1]
      · simp [h1]
    · rcases h2 : svc.process_pdf_bytes jb (secure_filename jf.filename) with e | jdd
      · rcases e with m | m
        · simp [h1, h2]
        · simp [h1, h2]
      · rcases h3 : svc.perform_resume_analysis rd with e | a
        · rcases e with m | m
          · simp [h1, h2, h3]
          · simp [h1, h2, h3]
        · rcases h4 : svc.calculate_resume_jd_similarity rd jdd with e | s
          · rcases e with m | m
            · simp [h1, h2, h3, h4]
            · simp [h1, h2, h3, h4]
          · simp [h1, h2, h3, h4]

/-- C9 witness: a resume file named only .pdf passes the original-name
suffix test yet is rejected with 400 by the sanitized-name check. -/
theorem analyze_uses_sanitized_filenames_witness :
    analyze_resume_and_jd_flask svcOk dotPdfReq 0 1 =
      ({ status := 400,
         body := Body.message ("Invalid file type. Please upload PDF files only.") }, []) :=
  (analyze_uses_sanitized_filenames svcOk dotPdfReq 0 1 dotPdfFile goodJd
    [1] [4, 5] rfl rfl rfl (by decide) (by decide)).1 (by decide) (by decide)

/-- C2: past validation, a ValueError with message m raised by any of
the four pipeline calls (parse resume, parse job description, analyze,
compare) answers 422 with body error Processing Error and detail equal
to the raised message. -/
theorem analyze_processing_value_error_422 {P A S : Type} (svc : Services P A S)
    (req : AnalyzeRequest) (t0 t1 : Rat) (rf jf : UploadedFile)
    (rb jb : List Nat)
    (hinit : svc.initialization_error = "")
    (hrf : req.files.lookup ("resume_file") = some rf)
    (hjf : req.files.lookup ("jd_file") = some jf)
    (hrn : ¬ rf.filename = "") (hjn : ¬ jf.filename = "")
    (hre : py_endswith (py_lower (secure_filename rf.filename)) (".pdf") = true)
    (hje : py_endswith (py_lower (secure_filename jf.filename)) (".pdf") = true)
    (hrr : rf.read = Except.ok rb) (hjr : jf.read = Except.ok jb) :
    (∀ m, svc.process_pdf_bytes rb (secure_filename rf.filename) =
        Except.error (PyErr.valueError m) →
      (analyze_resume_and_jd_flask svc req t0 t1).1 =
        { status := 422, body := Body.errorDetail ("Processing Error") m }) ∧
    (∀ rd m, svc.process_pdf_bytes rb (secure_filename rf.filename) = Except.ok rd →
      svc.process_pdf_bytes jb (secure_filename jf.filename) =
        Except.error (PyErr.valueError m) →
      (analyze_resume_and_jd_flask svc req t0 t1).1 =
        { status := 422, body := Body.errorDetail ("Processing Error") m }) ∧
    (∀ rd jdd m, svc.process_pdf_bytes rb (secure_filename rf.filename) = Except.ok rd →
      svc.process_pdf_bytes jb (secure_filename jf.filename) = Except.ok jdd →
      svc.perform_resume_analysis rd = Except.error (PyErr.valueError m) →
      (analyze_resume_and_jd_flask svc req t0 t1).1 =
        { status := 422, body := Body.errorDetail ("Processing Error") m }) ∧
    (∀ rd jdd a m, svc.process_pdf_bytes rb (secure_filename rf.filename) = Except.ok rd →
      svc.process_pdf_bytes jb (secure_filename jf.filename) = Except.ok jdd →
      svc.perform_resume_analysis rd = Except.ok a →
      svc.calculate_resume_jd_similarity rd jdd = Except.error (PyErr.valueError m) →
      (analyze_resume_and_jd_flask svc req t0 t1).1 =
        { status := 422, body := Body.errorDetail ("Processing Error") m }) := by
  have key := analyze_after_validation svc req t0 t1 rf jf rb jb hinit hrf hjf
    hrn hjn hre hje hrr hjr
  refine ⟨?_, ?_, ?_, ?_⟩
  · intro m h1
    rw [key]; unfold runProcessing; simp [h1]
  · intro rd m h1 h2
    rw [key]; unfold runProcessing; simp [h1, h2]
  · intro rd jdd m h1 h2 h3
    rw [key]; unfold runProcessing; simp [h1, h2, h3]
  · intro rd jdd a m h1 h2 h3 h4
    rw [key]; unfold runProcessing; simp [h1, h2, h3, h4]

/-- C2 witness: when PDF parsing raises ValueError bad pdf on a valid
request, the response is 422 with the raised message as detail. -/
theorem analyze_processing_value_error_422_witness :
    (analyze_resume_and_jd_flask svcParseValueError goodReq 0 1).1 =
      { status := 422, body := Body.errorDetail ("Processing Error") ("bad pdf") } :=
  (analyze_processing_value_error_422 svcParseValueError goodReq 0 1
    goodResume goodJd [1, 2, 3] [4, 5] rfl rfl rfl (by decide) (by decide)
    (by decide) (by decide) rfl rfl).1 ("bad pdf") rfl

/-- C3: past validation, an error of any other class with message m
raised by any of the four pipeline calls answers 500 with body error
Internal Server Error and detail equal to that message. -/
theorem analyze_unexpected_error_500 {P A S : Type} (svc : Services P A S)
    (req : AnalyzeRequest) (t0 t1 : Rat) (rf jf : UploadedFile)
    (rb jb : List Nat)
    (hinit : svc.initialization_error = "")
    (hrf : req.files.lookup ("resume_file") = some rf)
    (hjf : req.files.lookup ("jd_file") = some jf)
    (hrn : ¬ rf.filename = "") (hjn : ¬ jf.filename = "")
    (hre : py_endswith (py_lower (secure_filename rf.filename)) (".pdf") = true)
    (hje : py_endswith (py_lower (secure_filename jf.filename)) (".pdf") = true)
    (hrr : rf.read = Except.ok rb) (hjr : jf.read = Except.ok jb) :
    (∀ m, svc.process_pdf_bytes rb (secure_filename rf.filename) =
        Except.error (PyErr.otherError m) →
      (analyze_resume_and_jd_flask svc req t0 t1).1 =
        { status := 500, body := Body.errorDetail ("Internal Server Error") m }) ∧
    (∀ rd m, svc.process_pdf_bytes rb (secure_filename rf.filename) = Except.ok rd →
      svc.process_pdf_bytes jb (secure_filename jf.filename) =
        Except.error (PyErr.otherError m) →
      (analyze_resume_and_jd_flask svc req t0 t1).1 =
        { status := 500, body := Body.errorDetail ("Internal Server Error") m }) ∧
    (∀ rd jdd m, svc.process_pdf_bytes rb (secure_filename rf.filename) = Except.ok rd →
      svc.process_pdf_bytes jb (secure_filename jf.filename) = Except.ok jdd →
      svc.perform_resume_analysis rd = Except.error (PyErr.otherError m) →
      (analyze_resume_and_jd_flask svc req t0 t1).1 =
        { status := 500, body := Body.errorDetail ("Internal Server Error") m }) ∧
    (∀ rd jdd a m, svc.process_pdf_bytes rb (secure_filename rf.filename) = Except.ok rd →
      svc.process_pdf_bytes jb (secure_filename jf.filename) = Except.ok jdd →
      svc.perform_resume_analysis rd = Except.ok a →
      svc.calculate_resume_jd_similarity rd jdd = Except.error (PyErr.otherError m) →
      (analyze_resume_and_jd_flask svc req t0 t1).1 =
        { status := 500, body := Body.errorDetail ("Internal Server Error") m }) := by
  have key := analyze_after_validation svc req t0 t1 rf jf rb jb hinit hrf hjf
    hrn hjn hre hje hrr hjr
  refine ⟨?_, ?_, ?_, ?_⟩
  · intro m h1
    rw [key]; unfold runProcessing; simp [h1]
  · intro rd m h1 h2
    rw [key]; unfold runProcessing; simp [h1, h2]
  · intro rd jdd m h1 h2 h3
    rw [key]; unfold runProcessing; simp [h1, h2, h3]
  · intro rd jdd a m h1 h2 h3 h4
    rw [key]; unfold runProcessing; simp [h1, h2, h3, h4]

/-- C3 witness: when PDF parsing raises an unrecognized error oops on a
valid request, the response is 500 with that message as detail. -/
theorem analyze_unexpected_error_500_witness :
    (analyze_resume_and_jd_flask svcParseOtherError goodReq 0 1).1 =
      { status := 500, body := Body.errorDetail ("Internal Server Error") ("oops") } :=
  (analyze_unexpected_error_500 svcParseOtherError goodReq 0 1
    goodResume goodJd [1, 2, 3] [4, 5] rfl rfl rfl (by decide) (by decide)
    (by decide) (by decide) rfl rfl).1 ("oops") rfl

/-- C10: past filename validation, an exception raised while reading
either file answers 400 carrying the read error message, whatever the
class of the exception (a ValueError included), and no collaborator is
invoked: the status of an error depends on the phase raising it. -/
theorem analyze_read_error_400 {P A S : Type} (svc : Services P A S)
    (req : AnalyzeRequest) (t0 t1 : Rat) (rf jf : UploadedFile)
    (hinit : svc.initialization_error = "")
    (hrf : req.files.lookup ("resume_file") = some rf)
    (hjf : req.files.lookup ("jd_file") = some jf)
    (hrn : ¬ rf.filename = "") (hjn : ¬ jf.filename = "")
    (hre : py_endswith (py_lower (secure_filename rf.filename)) (".pdf") = true)
    (hje : py_endswith (py_lower (secure_filename jf.filename)) (".pdf") = true) :
    (∀ e, rf.read = Except.error e →
      analyze_resume_and_jd_flask svc req t0 t1 (P := P) (A := A) (S := S) =
        ({ status := 400,
           body := Body.message
             ("Failed to read file content: " ++ e.msg ++ ".") }, [])) ∧
    (∀ rb e, rf.read = Except.ok rb → jf.read = Except.error e →
      analyze_resume_and_jd_flask svc req t0 t1 (P := P) (A := A) (S := S) =
        ({ status := 400,
           body := Body.message
             ("Failed to read file content: " ++ e.msg ++ ".") }, [])) := by
  constructor
  · intro e he
    unfold analyze_resume_and_jd_flask
    rw [hrf, hjf]
    simp [hinit, hrn, hjn, hre, hje, he]
  · intro rb e hok he
    unfold analyze_resume_and_jd_flask
    rw [hrf, hjf]
    simp [hinit, hrn, hjn, hre, hje, hok, he]

/-- C10 witness: a resume upload whose read raises ValueError stream
broke answers 400 with the read message, an empty collaborator trace,
and not 422. -/
theorem analyze_read_error_400_witness :
    analyze_resume_and_jd_flask svcOk badReadReq 0 1 =
      ({ status := 400,
         body := Body.message
           ("Failed to read file content: " ++
             (PyErr.valueError ("stream broke")).msg ++ ".") }, []) :=
  (analyze_read_error_400 svcOk badReadReq 0 1 badReadFile goodJd
    rfl rfl rfl (by decide) (by decide) (by decide) (by decide)).1
    (PyErr.valueError ("stream broke")) rfl

/-- C6: past validation, the collaborator calls run in the strict
sequence parse resume, parse job description, analyze, compare; an
error at any step leaves exactly the calls made so far in the trace and
an error/detail body with no partial results; on full success all four
calls appear in order. -/
theorem analyze_pipeline_strict_sequence {P A S : Type} (svc : Services P A S)
    (req : AnalyzeRequest) (t0 t1 : Rat) (rf jf : UploadedFile)
    (rb jb : List Nat)
    (hinit : svc.initialization_error = "")
    (hrf : req.files.lookup ("resume_file") = some rf)
    (hjf : req.files.lookup ("jd_file") = some jf)
    (hrn : ¬ rf.filename = "") (hjn : ¬ jf.filename = "")
    (hre : py_endswith (py_lower (secure_filename rf.filename)) (".pdf") = true)
    (hje : py_endswith (py_lower (secure_filename jf.filename)) (".pdf") = true)
    (hrr : rf.read = Except.ok rb) (hjr : jf.read = Except.ok jb) :
    (∀ e, svc.process_pdf_bytes rb (secure_filename rf.filename) = Except.error e →
      (analyze_resume_and_jd_flask svc req t0 t1).2 =
        [CallEvent.parsePdf rb (secure_filename rf.filename)] ∧
      ∃ c d, (analyze_resume_and_jd_flask svc req t0 t1).1.body =
        Body.errorDetail c d) ∧
    (∀ rd e, svc.process_pdf_bytes rb (secure_filename rf.filename) = Except.ok rd →
      svc.process_pdf_bytes jb (secure_filename jf.filename) = Except.error e →
      (analyze_resume_and_jd_flask svc req t0 t1).2 =
        [CallEvent.parsePdf rb (secure_filename rf.filename),
         CallEvent.parsePdf jb (secure_filename jf.filename)] ∧
      ∃ c d, (analyze_resume_and_jd_flask svc req t0 t1).1.body =
        Body.errorDetail c d) ∧
    (∀ rd jdd e, svc.process_pdf_bytes rb (secure_filename rf.filename) = Except.ok rd →
      svc.process_pdf_bytes jb (secure_filename jf.filename) = Except.ok jdd →
      svc.perform_resume_analysis rd = Except.error e →
      (analyze_resume_and_jd_flask svc req t0 t1).2 =
        [CallEvent.parsePdf rb (secure_filename rf.filename),
         CallEvent.parsePdf jb (secure_filename jf.filename),
         CallEvent.analyze rd] ∧
      ∃ c d, (analyze_resume_and_jd_flask svc req t0 t1).1.body =
        Body.errorDetail c d) ∧
    (∀ rd jdd a e, svc.process_pdf_bytes rb (secure_filename rf.filename) = Except.ok rd →
      svc.process_pdf_bytes jb (secure_filename jf.filename) = Except.ok jdd →
      svc.perform_resume_analysis rd = Except.ok a →
      svc.calculate_resume_jd_similarity rd jdd = Except.error e →
      (analyze_resume_and_jd_flask svc req t0 t1).2 =
        [CallEvent.parsePdf rb (secure_filename rf.filename),
         CallEvent.parsePdf jb (secure_filename jf.filename),
         CallEvent.analyze rd,
         CallEvent.compareSimilarity rd jdd] ∧
      ∃ c d, (analyze_resume_and_jd_flask svc req t0 t1).1.body =
        Body.errorDetail c d) ∧
    (∀ rd jdd a s, svc.process_pdf_bytes rb (secure_filename rf.filename) = Except.ok rd →
      svc.process_pdf_bytes jb (secure_filename jf.filename) = Except.ok jdd →
      svc.perform_resume_analysis rd = Except.ok a →
      svc.calculate_resume_jd_similarity rd jdd = Except.ok s →
      analyze_resume_and_jd_flask svc req t0 t1 =
        ({ status := 200,
           body := Body.envelope
             { resume_analysis := a, similarity_results := s,
               processing_time_seconds := t1 - t0 } },
         [CallEvent.parsePdf rb (secure_filename rf.filename),
          CallEvent.parsePdf jb (secure_filename jf.filename),
          CallEvent.analyze rd,
          CallEvent.compareSimilarity rd jdd])) := by
  have key := analyze_after_validation svc req t0 t1 rf jf rb jb hinit hrf hjf
    hrn hjn hre hje hrr hjr
  refine ⟨?_, ?_, ?_, ?_, ?_⟩
  · intro e h1
    rw [key]; unfold runProcessing
    rcases e with m | m
    · exact ⟨by simp [h1], ⟨("Processing Error"), m, by simp [h1]⟩⟩
    · exact ⟨by simp [h1], ⟨("Internal Server Error"), m, by simp [h1]⟩⟩
  · intro rd e h1 h2
    rw [key]; unfold runProcessing
    rcases e with m | m
    · exact ⟨by simp [h1, h2], ⟨("Processing Error"), m, by simp [h1, h2]⟩⟩
    · exact ⟨by simp [h1, h2], ⟨("Internal Server Error"), m, by simp [h1, h2]⟩⟩
  · intro rd jdd e h1 h2 h3
    rw [key]; unfold runProcessing
    rcases e with m | m
    · exact ⟨by simp [h1, h2, h3], ⟨("Processing Error"), m, by simp [h1, h2, h3]⟩⟩
    · exact ⟨by simp [h1, h2, h3], ⟨("Internal Server Error"), m, by simp [h1, h2, h3]⟩⟩
  · intro rd jdd a e h1 h2 h3 h4
    rw [key]; unfold runProcessing
    rcases e with m | m
    · exact ⟨by simp [h1, h2, h3, h4], ⟨("Processing Error"), m, by simp [h1, h2, h3, h4]⟩⟩
    · exact ⟨by simp [h1, h2, h3, h4], ⟨("Internal Server Error"), m, by simp [h1, h2, h3, h4]⟩⟩
  · intro rd jdd a s h1 h2 h3 h4
    rw [key]; unfold runProcessing
    simp [h1, h2, h3, h4]

/-- C6 witness: on a fully valid request with all collaborators
succeeding, the four calls appear in the trace in the strict order
parse resume, parse job description, analyze, compare. -/
theorem analyze_pipeline_strict_sequence_witness :
    analyze_resume_and_jd_flask svcOk goodReq 0 1 =
      ({ status := 200,
         body := Body.envelope
           { resume_analysis := 8, similarity_results := 9,
             processing_time_seconds := 1 - 0 } },
       [CallEvent.parsePdf [1, 2, 3] (secure_filename goodResume.filename),
        CallEvent.parsePdf [4, 5] (secure_filename goodJd.filename),
        CallEvent.analyze 7,
        CallEvent.compareSimilarity 7 7]) :=
  (analyze_pipeline_strict_sequence svcOk goodReq 0 1 goodResume goodJd
    [1, 2, 3] [4, 5] rfl rfl rfl (by decide) (by decide) (by decide) (by decide)
    rfl rfl).2.2.2.2 7 7 8 9 rfl rfl rfl rfl

/-- C7: past validation with all four collaborator calls succeeding,
the response is 200 and its body is the envelope holding exactly the
analysis result, the similarity result and the elapsed wall-clock time,
which is nonnegative when the clock does not run backwards. -/
theorem analyze_success_envelope {P A S : Type} (svc : Services P A S)
    (req : AnalyzeRequest) (t0 t1 : Rat) (rf jf : UploadedFile)
    (rb jb : List Nat) (rd jdd : P) (a : A) (s : S)
    (hinit : svc.initialization_error = "")
    (hrf : req.files.lookup ("resume_file") = some rf)
    (hjf : req.files.lookup ("jd_file") = some jf)
    (hrn : ¬ rf.filename = "") (hjn : ¬ jf.filename = "")
    (hre : py_endswith (py_lower (secure_filename rf.filename)) (".pdf") = true)
    (hje : py_endswith (py_lower (secure_filename jf.filename)) (".pdf") = true)
    (hrr : rf.read = Except.ok rb) (hjr : jf.read = Except.ok jb)
    (h1 : svc.process_pdf_bytes rb (secure_filename rf.filename) = Except.ok rd)
    (h2 : svc.process_pdf_bytes jb (secure_filename jf.filename) = Except.ok jdd)
    (h3 : svc.perform_resume_analysis rd = Except.ok a)
    (h4 : svc.calculate_resume_jd_similarity rd jdd = Except.ok s)
    (ht : t0 ≤ t1) :
    (analyze_resume_and_jd_flask svc req t0 t1).1 =
      { status := 200,
        body := Body.envelope
          { resume_analysis := a, similarity_results := s,
            processing_time_seconds := t1 - t0 } } ∧
    0 ≤ t1 - t0 := by
  have key := analyze_after_validation svc req t0 t1 rf jf rb jb hinit hrf hjf
    hrn hjn hre hje hrr hjr
  refine ⟨?_, sub_nonneg.mpr ht⟩
  rw [key]; unfold runProcessing
  simp [h1, h2, h3, h4]

/-- C7 witness: a fully valid request with succeeding collaborators and
clock samples 0 and 2 answers 200 with the envelope and a nonnegative
processing time. -/
theorem analyze_success_envelope_witness :
    (analyze_resume_and_jd_flask svcOk goodReq 0 2).1 =
      { status := 200,
        body := Body.envelope
          { resume_analysis := 8, similarity_results := 9,
            processing_time_seconds := 2 - 0 } } ∧
    (0 : Rat) ≤ 2 - 0 :=
  analyze_success_envelope svcOk goodReq 0 2 goodResume goodJd
    [1, 2, 3] [4, 5] 7 7 8 9 rfl rfl rfl (by decide) (by decide)
    (by decide) (by decide) rfl rfl rfl rfl rfl rfl (by norm_num)
